import Mathlib

/-!
A shallow embedding of the query execution and pagination pipeline of the
dune-agent repository (`src/utils/run_query.py`, `src/main.py`,
`src/utils/selenium_utils.py`, `src/utils/config.py`,
`src/utils/exceptions.py`), together with theorems settling the frozen
claims about it.

Modelling conventions:
* HTTP interactions are replaced by oracles (functions from call indices or
  request parameters to responses); a deterministic server model.
* Python exceptions become explicit outcome values; machine-level details
  (JSON decoding, string formatting with braces) are carried as messages.
* Timestamps are instants measured in microseconds (a Python `datetime`
  parsed from the fixed fractional-seconds format has microsecond
  resolution); `datetime.utcnow() - parsed` becomes integer subtraction.
* Unbounded `while` loops take an explicit fuel argument; `fuelOut` is a
  model artifact never reached by the theorems, which supply ample fuel.
-/

namespace DuneAgent

/-- Result rows are opaque records whose content the core never inspects
(beyond emptiness of a page); only identity and order matter, so a row is
modelled by `Nat`. -/
abbrev Row := Nat

/-- From `utils/config.py`: `MAX_RETRIES = 30`. -/
def MAX_RETRIES : Nat := 30

/-- From `utils/config.py`: `POLL_INTERVAL = 5` seconds. -/
def POLL_INTERVAL : Nat := 5

/-- From `utils/config.py`: `MAX_POLL_ATTEMPTS = 60`. -/
def MAX_POLL_ATTEMPTS : Nat := 60

/-- From `utils/config.py`: `STALE_DATA_THRESHOLD = 8` hours. -/
def STALE_DATA_THRESHOLD : Nat := 8

/-- Exception values of the application, from `utils/exceptions.py` plus
Python built-ins that escape the handlers (`valueError` for `ValueError`
raised outside a `try`, `raw` for an arbitrary exception re-raised
unwrapped). Each carries its message string. -/
inductive PyError where
  | queryExecution (msg : String)
  | queryTimeout (msg : String)
  | noData (msg : String)
  | apiKey (msg : String)
  | valueError (msg : String)
  | selenium (msg : String)
  | raw (msg : String)
deriving DecidableEq, Repr

/-- The message carried by an exception value (Python `str(e)`). -/
def PyError.msg : PyError → String
  | .queryExecution m => m
  | .queryTimeout m => m
  | .noData m => m
  | .apiKey m => m
  | .valueError m => m
  | .selenium m => m
  | .raw m => m

/-- True exactly for the three query-execution error kinds raised by the
Query Runner (`QueryExecutionError`, `QueryTimeoutError`, `NoDataError`). -/
def PyError.isExecKind : PyError → Bool
  | .queryExecution _ => true
  | .queryTimeout _ => true
  | .noData _ => true
  | _ => false

/-- True exactly for the lookup-specific error kind (`SeleniumError`). -/
def PyError.isSelenium : PyError → Bool
  | .selenium _ => true
  | _ => false

/-- Outcome of one HTTP request, as seen by the Python code: a parsed
response value, an `httpx.HTTPError` (transport failure or
`raise_for_status`), or any other exception (e.g. JSON decoding). -/
inductive Resp (α : Type) where
  | ok (a : α)
  | httpErr (msg : String)
  | exn (msg : String)
deriving DecidableEq, Repr

/-- One page of the results endpoint: the `result.rows` list and the
top-level optional `next_offset` cursor. -/
structure Page where
  rows : List Row
  next_offset : Option Nat
deriving DecidableEq, Repr

/-- Classification of a state string by the `if`/`elif` chain at
`run_query.py` lines 86-138. The comparisons are against the literal
strings of the source; any other value (including a missing `state` key)
falls to the final `else`. -/
inductive StateClass where
  | success
  | failTerminal
  | nonTerminal
  | unknown
deriving DecidableEq, Repr

/-- The state dispatch of `run_query.py` lines 86-138: `COMPLETED` is the
sole success terminal, `FAILED`/`CANCELLED`/`ERROR` are failure terminals,
`EXECUTING`/`PENDING` continue polling, anything else is unknown. -/
def classifyState (st : String) : StateClass :=
  if st = "QUERY_STATE_COMPLETED" then .success
  else if st = "QUERY_STATE_FAILED" || st = "QUERY_STATE_CANCELLED" || st = "QUERY_STATE_ERROR" then .failTerminal
  else if st = "QUERY_STATE_EXECUTING" || st = "QUERY_STATE_PENDING" then .nonTerminal
  else .unknown

/-- What an exception raised inside one outer attempt of `run_query` is:
one of the three anticipated application errors (caught at line 143), an
`httpx.HTTPError` (caught at line 151 and wrapped), or any other exception
(caught at line 159, wrapped and not retried). -/
inductive AttemptErr where
  | dune (e : PyError)
  | transport (msg : String)
  | unexpected (msg : String)
deriving DecidableEq, Repr

/-- Outcome of the poll loop of `run_query.py` lines 80-141. `timedOut`
stands for the loop exiting by its counter, after which line 141 raises
`QueryTimeoutError`. -/
inductive PollOutcome where
  | completed
  | raised (e : AttemptErr)
  | timedOut
deriving DecidableEq, Repr

/-- Result of the poll loop: its outcome plus the number of status checks
issued and the number of `time.sleep(POLL_INTERVAL)` calls made. -/
structure PollRes where
  outcome : PollOutcome
  checks : Nat
  sleeps : Nat
deriving DecidableEq, Repr

/-- The poll loop (`while poll_count < MAX_POLL_ATTEMPTS` at
`run_query.py` line 80), with the status oracle indexed by poll count and
the remaining budget `MAX_POLL_ATTEMPTS - poll_count` as the structural
fuel. Each iteration issues one status check; a non-terminal state sleeps
once and continues; terminal and unknown states exit with one check and no
sleep. -/
def pollLoop (status : Nat → Resp String) : Nat → Nat → PollRes
  | _, 0 => ⟨.timedOut, 0, 0⟩
  | pc, fuel + 1 =>
    match status pc with
    | .httpErr m => ⟨.raised (.transport m), 1, 0⟩
    | .exn m => ⟨.raised (.unexpected m), 1, 0⟩
    | .ok st =>
      match classifyState st with
      | .success => ⟨.completed, 1, 0⟩
      | .failTerminal =>
        ⟨.raised (.dune (.queryExecution ("Query execution failed with state: " ++ st))), 1, 0⟩
      | .nonTerminal =>
        let r := pollLoop status (pc + 1) fuel
        ⟨r.outcome, r.checks + 1, r.sleeps + 1⟩
      | .unknown =>
        ⟨.raised (.dune (.queryExecution ("Unknown query state: " ++ st))), 1, 0⟩

/-- Outcome of the page-fetch loop of `run_query.py` lines 88-129:
`done` is the `return all_results` at line 129, `raised` an exception
propagating out of the loop body. -/
inductive FetchOutcome where
  | done (rows : List Row)
  | raised (e : AttemptErr)
  | fuelOut
deriving DecidableEq, Repr

/-- Result of the page-fetch loop: its outcome, the number of result
fetches issued, and the final values of the three loop variables
`offset` / `all_results` / `has_more_results` (which survive the loop —
they are locals of the whole `run_query` call, not of one attempt). -/
structure FetchRes where
  outcome : FetchOutcome
  fetches : Nat
  offset : Nat
  acc : List Row
  hasMore : Bool
deriving DecidableEq, Repr

/-- The page-fetch loop (`while has_more_results` at `run_query.py` line
88). `results` is the results endpoint for the current execution, keyed by
the requested offset. A non-empty page is appended to the accumulator and
the loop continues exactly when a `next_offset` is supplied and the page
was full (line 119); an empty page stops the loop and raises `NoDataError`
when nothing was accumulated at all (lines 124-127). -/
def fetchLoop (results : Nat → Resp Page) (limit : Nat) :
    Nat → List Row → Bool → Nat → FetchRes
  | offset, acc, false, _ => ⟨.done acc, 0, offset, acc, false⟩
  | offset, acc, true, 0 => ⟨.fuelOut, 0, offset, acc, true⟩
  | offset, acc, true, fuel + 1 =>
    match results offset with
    | .httpErr m => ⟨.raised (.transport m), 1, offset, acc, true⟩
    | .exn m => ⟨.raised (.unexpected m), 1, offset, acc, true⟩
    | .ok page =>
      if page.rows.isEmpty then
        if acc.isEmpty then
          ⟨.raised (.dune (.noData "Query completed but no data returned")), 1, offset, acc, false⟩
        else
          ⟨.done acc, 1, offset, acc, false⟩
      else
        let acc' := acc ++ page.rows
        match page.next_offset with
        | none => ⟨.done acc', 1, offset, acc', false⟩
        | some n =>
          if page.rows.length < limit then
            ⟨.done acc', 1, offset, acc', false⟩
          else
            let r := fetchLoop results limit n acc' true fuel
            { r with fetches := r.fetches + 1 }

/-- The remote server as seen by `run_query`: the execution submission
response per outer attempt (`execution_id` optional in the JSON), the
status response per attempt and poll count, and the results response per
execution identifier and offset. -/
structure Server where
  exec : Nat → Resp (Option String)
  status : Nat → Nat → Resp String
  results : String → Nat → Resp Page

/-- Outcome of one outer attempt of `run_query` (one iteration of the
`while retry_count < MAX_RETRIES` loop body). -/
inductive AttemptOutcome where
  | success (rows : List Row)
  | raised (e : AttemptErr)
  | fuelOut
deriving DecidableEq, Repr

/-- Result of one outer attempt: outcome, counters, and the final values
of the shared loop variables. -/
structure AttemptRes where
  outcome : AttemptOutcome
  checks : Nat
  sleeps : Nat
  fetches : Nat
  offset : Nat
  acc : List Row
  hasMore : Bool
deriving DecidableEq, Repr

/-- The shared mutable state of `run_query` threaded through attempts:
`offset`, `all_results`, `has_more_results`. In the source these are
initialised once, before the retry loop (lines 56-61), and are not reset
per attempt. -/
structure RunState where
  offset : Nat
  acc : List Row
  hasMore : Bool
deriving DecidableEq, Repr

/-- One outer attempt of `run_query` (lines 64-141): submit the execution,
fail fast on a missing `execution_id` (line 73), poll via `pollLoop`,
convert poll-loop exhaustion into `QueryTimeoutError` (line 141), and on
completion run `fetchLoop` from the current shared state. -/
def runAttempt (srv : Server) (limit attemptIdx : Nat) (st : RunState)
    (fetchFuel : Nat) : AttemptRes :=
  match srv.exec attemptIdx with
  | .httpErr m => ⟨.raised (.transport m), 0, 0, 0, st.offset, st.acc, st.hasMore⟩
  | .exn m => ⟨.raised (.unexpected m), 0, 0, 0, st.offset, st.acc, st.hasMore⟩
  | .ok none =>
    ⟨.raised (.dune (.queryExecution "Failed to start query execution")), 0, 0, 0,
      st.offset, st.acc, st.hasMore⟩
  | .ok (some eid) =>
    let p := pollLoop (srv.status attemptIdx) 0 MAX_POLL_ATTEMPTS
    match p.outcome with
    | .timedOut =>
      ⟨.raised (.dune (.queryTimeout "Query execution timed out")), p.checks, p.sleeps, 0,
        st.offset, st.acc, st.hasMore⟩
    | .raised e => ⟨.raised e, p.checks, p.sleeps, 0, st.offset, st.acc, st.hasMore⟩
    | .completed =>
      let f := fetchLoop (srv.results eid) limit st.offset st.acc st.hasMore fetchFuel
      match f.outcome with
      | .done rows => ⟨.success rows, p.checks, p.sleeps, f.fetches, f.offset, f.acc, f.hasMore⟩
      | .raised e => ⟨.raised e, p.checks, p.sleeps, f.fetches, f.offset, f.acc, f.hasMore⟩
      | .fuelOut => ⟨.fuelOut, p.checks, p.sleeps, f.fetches, f.offset, f.acc, f.hasMore⟩

/-- Final outcome of a `run_query` call: the returned row list or the
exception propagated to the caller. -/
inductive RunOutcome where
  | success (rows : List Row)
  | failure (e : PyError)
  | fuelOut
deriving DecidableEq, Repr

/-- Result of a `run_query` call together with observable counters:
`retries` is the final `retry_count`, `retrySleeps` the number of
inter-attempt `time.sleep(POLL_INTERVAL)` calls (lines 148 and 156),
and the remaining counters aggregate over all attempts. -/
structure RunRes where
  outcome : RunOutcome
  retries : Nat
  retrySleeps : Nat
  checks : Nat
  pollSleeps : Nat
  fetches : Nat
deriving DecidableEq, Repr

/-- The outer retry loop of `run_query` (`while retry_count < MAX_RETRIES`
at line 63), with fuel `MAX_RETRIES - retry_count`. An anticipated error
(`QueryExecutionError` / `QueryTimeoutError` / `NoDataError`) is stored as
`last_error` and retried; an `httpx.HTTPError` is wrapped then stored and
retried; any other exception aborts immediately wrapped as
`QueryExecutionError` (line 160). A retry sleeps only while
`retry_count < MAX_RETRIES` after the increment (lines 146-148, 154-156).
When the loop exits, the last stored error is re-raised, else `[]` is
returned (lines 162-164). -/
def runLoop (srv : Server) (limit fetchFuel : Nat) :
    Nat → Nat → Option PyError → RunState → RunRes
  | 0, retryCount, lastError, _ =>
    match lastError with
    | some e => ⟨.failure e, retryCount, 0, 0, 0, 0⟩
    | none => ⟨.success [], retryCount, 0, 0, 0, 0⟩
  | fuel + 1, retryCount, _lastError, st =>
    let a := runAttempt srv limit retryCount st fetchFuel
    let st' : RunState := ⟨a.offset, a.acc, a.hasMore⟩
    match a.outcome with
    | .success rows =>
      ⟨.success rows, retryCount, 0, a.checks, a.sleeps, a.fetches⟩
    | .fuelOut => ⟨.fuelOut, retryCount, 0, a.checks, a.sleeps, a.fetches⟩
    | .raised (.unexpected m) =>
      ⟨.failure (.queryExecution ("Error processing query: " ++ m)), retryCount, 0,
        a.checks, a.sleeps, a.fetches⟩
    | .raised (.transport m) =>
      let e := PyError.queryExecution ("HTTP error running query: " ++ m)
      let sleep := if fuel > 0 then 1 else 0
      let r := runLoop srv limit fetchFuel fuel (retryCount + 1) (some e) st'
      ⟨r.outcome, r.retries, r.retrySleeps + sleep, r.checks + a.checks,
        r.pollSleeps + a.sleeps, r.fetches + a.fetches⟩
    | .raised (.dune e) =>
      let sleep := if fuel > 0 then 1 else 0
      let r := runLoop srv limit fetchFuel fuel (retryCount + 1) (some e) st'
      ⟨r.outcome, r.retries, r.retrySleeps + sleep, r.checks + a.checks,
        r.pollSleeps + a.sleeps, r.fetches + a.fetches⟩

/-- `run_query` of `utils/run_query.py`: defaults `limit` to 1000 and
`offset` to 0 (lines 52-58), initialises the accumulator and
`has_more_results` once (lines 60-61), and enters the outer retry loop
with a fresh budget. -/
def run_query (srv : Server) (limit offset : Option Nat) (fetchFuel : Nat) : RunRes :=
  let l := limit.getD 1000
  let o := offset.getD 0
  runLoop srv l fetchFuel MAX_RETRIES 0 none ⟨o, [], true⟩

/-- The staleness threshold of `k` hours as a microsecond delta, matching
`timedelta(hours=k)` compared against a difference of microsecond-resolution
`datetime` values (`main.py` lines 165-169). -/
def hoursToMicros (k : Nat) : Int := (k : Int) * 3600 * 1000000

/-- The staleness decision of `main.py` lines 158-169, on an envelope whose
timestamp has already been parsed to an instant (microseconds): a missing
`execution_started_at` forces re-execution (line 160); otherwise the data
is stale when the row list is empty or `now - execution_started_at` is at
least the threshold (line 169). -/
def isStale (started : Option Int) (rows : List Row) (now : Int)
    (thresholdHours : Nat) : Bool :=
  match started with
  | none => true
  | some t => rows.isEmpty || decide (hoursToMicros thresholdHours ≤ now - t)

/-- One parsed response envelope of `GET /query/id/results` as read by the
accessor: `result.rows`, the optional `execution_started_at` instant, and
the optional `next_offset` cursor. -/
structure Envelope where
  rows : List Row
  execution_started_at : Option Int
  next_offset : Option Nat
deriving DecidableEq, Repr

/-- Outcome of one existing-results fetch in the accessor: an HTTP 404
(line 151), a parsed envelope, an `httpx.HTTPError`, or another exception
(e.g. JSON decoding). -/
inductive AccResp where
  | notFound
  | ok (env : Envelope)
  | httpErr (msg : String)
  | exn (msg : String)
deriving DecidableEq, Repr

/-- The environment of `get_latest_result_by_query_id`: the existing-results
endpoint indexed by fetch-call number (its state changes when the Runner
executes the query, so responses are keyed by call order, not offset), and
the outcome of the `n`-th `run_query(query_id)` call. -/
structure AccEnv where
  fetch : Nat → AccResp
  runner : Nat → RunOutcome

/-- Final outcome of the accessor together with the number of
existing-results fetches and of `run_query` invocations it performed. -/
structure AccRes where
  outcome : RunOutcome
  fetchCalls : Nat
  runnerCalls : Nat
deriving DecidableEq, Repr

/-- An exception raised by a nested `run_query` call inside the accessor is
caught by the accessor's final handler (`main.py` line 188) and re-wrapped;
a successful runner outcome is propagated as is. Used by the branches that
`return run_query(query_id)` (lines 162 and 171). -/
def wrapRunnerOutcome (o : RunOutcome) : RunOutcome :=
  match o with
  | .success rows => .success rows
  | .failure e => .failure (.queryExecution ("Error processing query results: " ++ e.msg))
  | .fuelOut => .fuelOut

/-- The pagination loop of `get_latest_result_by_query_id` (`main.py`
lines 129-184), with the loop state `offset` / accumulated rows and the
call counters `fIdx` (next fetch index) and `rIdx` (next runner index).
On 404 the code calls `run_query(query_id)`, discards its value and
re-enters the loop (lines 151-153); a raised runner error is re-wrapped by
the final handler. Every iteration re-applies the missing-timestamp and
staleness checks (lines 158-171) before accumulating; a short page or a
missing cursor ends the loop, returning the accumulated rows (lines
177-184). -/
def getLatestAux (env : AccEnv) (now : Int) (limit : Nat) :
    Nat → List Row → Nat → Nat → Nat → AccRes
  | _, _, _, _, 0 => ⟨.fuelOut, 0, 0⟩
  | offset, acc, fIdx, rIdx, fuel + 1 =>
    match env.fetch fIdx with
    | .httpErr m =>
      ⟨.failure (.queryExecution ("HTTP error fetching query results: " ++ m)), 1, 0⟩
    | .exn m =>
      ⟨.failure (.queryExecution ("Error processing query results: " ++ m)), 1, 0⟩
    | .notFound =>
      match env.runner rIdx with
      | .failure e =>
        ⟨.failure (.queryExecution ("Error processing query results: " ++ e.msg)), 1, 1⟩
      | .fuelOut => ⟨.fuelOut, 1, 1⟩
      | .success _ =>
        let r := getLatestAux env now limit offset acc (fIdx + 1) (rIdx + 1) fuel
        ⟨r.outcome, r.fetchCalls + 1, r.runnerCalls + 1⟩
    | .ok e =>
      if isStale e.execution_started_at e.rows now STALE_DATA_THRESHOLD then
        ⟨wrapRunnerOutcome (env.runner rIdx), 1, 1⟩
      else
        let acc' := acc ++ e.rows
        match e.next_offset with
        | none => ⟨.success acc', 1, 0⟩
        | some n =>
          if e.rows.length < limit then ⟨.success acc', 1, 0⟩
          else
            let r := getLatestAux env now limit n acc' (fIdx + 1) rIdx fuel
            ⟨r.outcome, r.fetchCalls + 1, r.runnerCalls⟩

/-- `get_latest_result_by_query_id` of `main.py`: defaults `limit` to 100
and `offset` to 0 (lines 119-124), starts with an empty accumulator, and
runs the pagination loop. -/
def get_latest_result_by_query_id (env : AccEnv) (now : Int)
    (limit offset : Option Nat) (fuel : Nat) : AccRes :=
  getLatestAux env now (limit.getD 100) (offset.getD 0) [] 0 0 fuel

/-- Python `str.split(sep)` on a non-empty separator, walking the character
list with an explicit fuel bound (one unit per character examined, so
`length + 1` always suffices): at each position either the separator is a
literal match, closing the current segment, or one character is shifted
into the current segment. -/
def splitSegs (delim : List Char) : Nat → List Char → List Char → List (List Char)
  | 0, rest, cur => [cur.reverse ++ rest]
  | _ + 1, [], cur => [cur.reverse]
  | fuel + 1, c :: rest, cur =>
    if delim.isPrefixOf (c :: rest) then
      cur.reverse :: splitSegs delim fuel (List.drop delim.length (c :: rest)) []
    else
      splitSegs delim fuel rest (c :: cur)

/-- Python `s.split(delim)` for a non-empty `delim`. -/
def splitOnStr (delim s : String) : List String :=
  (splitSegs delim.data (s.data.length + 1) s.data []).map String.mk

/-- Python `int(s)` restricted to plain decimal digit strings (the only
shape the scraped identifiers take); anything else raises `ValueError`,
modelled as `none`. -/
def digitsToNat? (l : List Char) : Option Nat :=
  if l.isEmpty then none
  else if l.all Char.isDigit then
    some (l.foldl (fun n c => n * 10 + (c.toNat - 48)) 0)
  else none

/-- One scraped title element of the discovery page, as consumed by the
loop at `selenium_utils.py` lines 128-143: the `href` of its ancestor
anchor (absent when the lookup fails or the attribute is missing) and its
title text. -/
structure ScrapedElement where
  href : Option String
  title : String
deriving DecidableEq, Repr

/-- One record returned by the identifier lookup:
`query_id: integer, title: string` (`selenium_utils.py` line 137). -/
structure QueryRecord where
  query_id : Nat
  title : String
deriving DecidableEq, Repr

/-- The identifier parse of `selenium_utils.py` line 136:
`int(href.split("queries/")[-1])`; a non-numeric remainder raises
`ValueError`, which the loop catches and skips. -/
def parseQueryId (href : String) : Option Nat :=
  digitsToNat? ((((splitOnStr "queries/" href).getLast?).getD "").data)

/-- Python `href.startswith("https://dune.com/queries")` of
`selenium_utils.py` line 135. -/
def hasDunePrefix (h : String) : Bool :=
  "https://dune.com/queries".data.isPrefixOf h.data

/-- The per-element processing of `selenium_utils.py` lines 128-143: keep
an element exactly when its ancestor href exists, starts with the Dune
queries URL, and its trailing segment parses as an integer; any failure
skips the element. -/
def extractRecord (e : ScrapedElement) : Option QueryRecord :=
  match e.href with
  | none => none
  | some h =>
    if hasDunePrefix h then
      (parseQueryId h).map fun n => ⟨n, e.title⟩
    else none

/-- `get_queries_ids` of `selenium_utils.py` lines 95-149: an uninitialised
driver (line 101), a missing results table (line 118) or any scraping
exception (line 147) yields `[]`; otherwise the element list is filtered
and mapped into records. -/
def get_queries_ids (driverReady tableFound : Bool) (scrapeFails : Bool)
    (elements : List ScrapedElement) : List QueryRecord :=
  if ¬ driverReady then []
  else if scrapeFails then []
  else if ¬ tableFound then []
  else elements.filterMap extractRecord

/-- `get_query_ids` of `main.py` lines 57-80: `SeleniumUtils()` is
constructed before the `try`, so a driver-construction failure (re-raised
at `selenium_utils.py` line 92) propagates unwrapped. Inside the `try`, an
empty lookup yields `None` (line 78); a non-empty lookup reaches
`_data[0].split(...)` on a record, whose `AttributeError` is caught at
line 79 and re-raised as `SeleniumError`. -/
def get_query_ids : Except String Unit → Bool → Bool → Bool →
    List ScrapedElement → Except PyError (Option String)
  | .error m, _, _, _, _ => .error (.raw m)
  | .ok _, driverReady, tableFound, scrapeFails, elements =>
    let data := get_queries_ids driverReady tableFound scrapeFails elements
    if data.isEmpty then .ok none
    else .error (.selenium "Error getting query IDs: dict object has no attribute split")

/-- A server on which every execution submission succeeds, every execution
completes on the first status check, and every results page is empty: the
sustained no-data scenario. -/
def srvNoData : Server where
  exec := fun _ => .ok (some "e")
  status := fun _ _ => .ok "QUERY_STATE_COMPLETED"
  results := fun _ _ => .ok ⟨[], none⟩

/-- A server on which attempt 0 (execution `e0`) serves a full first page
`[1, 2]` with cursor 2 and then fails with a transport error, while
attempt 1 (execution `e1`) would serve `[10, 20]` at offset 0 and `[30]`
at offset 2. -/
def srvMixed : Server where
  exec := fun n => if n = 0 then .ok (some "e0") else .ok (some "e1")
  status := fun _ _ => .ok "QUERY_STATE_COMPLETED"
  results := fun eid off =>
    if eid = "e0" then
      (if off = 0 then .ok ⟨[1, 2], some 2⟩ else .httpErr "boom")
    else
      (if off = 0 then .ok ⟨[10, 20], some 2⟩
       else if off = 2 then .ok ⟨[30], none⟩ else .ok ⟨[], none⟩)

/-- The synthetic page sequence of the pagination scenario: 100 rows with a
cursor, 100 rows with a cursor, 40 rows without a cursor, against page
limit 100. Row values encode global position, so order is observable. -/
def pages240 : Nat → Resp Page := fun off =>
  if off = 0 then .ok ⟨List.range 100, some 100⟩
  else if off = 100 then .ok ⟨(List.range 100).map (· + 100), some 200⟩
  else if off = 200 then .ok ⟨(List.range 40).map (· + 200), none⟩
  else .ok ⟨[], none⟩

/-- An accessor environment whose first existing-results fetch reports 404,
whose Query Runner returns `[7]`, and whose second fetch serves a fresh
non-empty envelope with rows `[8]`. -/
def env404 : AccEnv where
  fetch := fun n => if n = 0 then .notFound else .ok ⟨[8], some 0, none⟩
  runner := fun _ => .success [7]

/-- An accessor environment whose first page (rows `[1]`, fresh timestamp,
cursor 1, full against limit 1) is followed by a second page with a missing
`execution_started_at`; its Query Runner returns `[99]`. -/
def envSecondPage : AccEnv where
  fetch := fun n =>
    if n = 0 then .ok ⟨[1], some 0, some 1⟩ else .ok ⟨[2], none, none⟩
  runner := fun _ => .success [99]

/-- A status oracle that reports `PENDING` on the first two checks and
`COMPLETED` on the third. -/
def statusThird : Nat → Resp String := fun n =>
  if n < 2 then .ok "QUERY_STATE_PENDING" else .ok "QUERY_STATE_COMPLETED"

set_option maxRecDepth 40000

/-- Against a status oracle that only ever reports non-terminal states, the
poll loop exhausts its whole budget, issuing one check and one sleep per
unit of fuel. -/
theorem pollLoop_nonterminal (status : Nat → Resp String)
    (h : ∀ i, ∃ s, status i = .ok s ∧ classifyState s = .nonTerminal) :
    ∀ fuel pc, pollLoop status pc fuel = ⟨.timedOut, fuel, fuel⟩ := by
  intro fuel
  induction fuel with
  | zero => intro pc; rfl
  | succ n ih =>
    intro pc
    obtain ⟨s, hs, hc⟩ := h pc
    simp only [pollLoop, hs, hc, ih (pc + 1)]

/-- When the first `m` checks starting at `pc` report non-terminal states
and the following check reports the success terminal, the poll loop
succeeds after exactly `m + 1` checks and `m` sleeps. -/
theorem pollLoop_completes (status : Nat → Resp String) :
    ∀ m pc fuel, m + 1 ≤ fuel →
    (∀ i, i < m → ∃ s, status (pc + i) = .ok s ∧ classifyState s = .nonTerminal) →
    (∃ s, status (pc + m) = .ok s ∧ classifyState s = .success) →
    pollLoop status pc fuel = ⟨.completed, m + 1, m⟩ := by
  intro m
  induction m with
  | zero =>
    intro pc fuel hf hpre hsucc
    obtain ⟨s, hs, hc⟩ := hsucc
    obtain ⟨f, rfl⟩ : ∃ f, fuel = f + 1 := ⟨fuel - 1, by omega⟩
    simp only [Nat.add_zero] at hs
    simp only [pollLoop, hs, hc]
  | succ k ih =>
    intro pc fuel hf hpre hsucc
    obtain ⟨f, rfl⟩ : ∃ f, fuel = f + 1 := ⟨fuel - 1, by omega⟩
    obtain ⟨s, hs, hc⟩ := hpre 0 (Nat.succ_pos k)
    simp only [Nat.add_zero] at hs
    have ihres := ih (pc + 1) f (by omega)
      (fun i hi => by
        have := hpre (i + 1) (by omega)
        simpa [Nat.add_assoc, Nat.add_comm 1 i] using this)
      (by
        obtain ⟨t, ht, htc⟩ := hsucc
        exact ⟨t, by simpa [Nat.add_assoc, Nat.add_comm 1 k] using ht, htc⟩)
    simp only [pollLoop, hs, hc, ihres]

/-- C4: the poll loop of the Query Runner, run against a status source that
always reports a non-terminal state, performs exactly `MAX_POLL_ATTEMPTS`
(60) status checks with one `POLL_INTERVAL` (5 second) sleep after each and
then exits by its counter, upon which the attempt fails with
`QueryTimeoutError`; if instead the success terminal is reported on check
`N` (with the earlier checks non-terminal and `N ≤ MAX_POLL_ATTEMPTS`), it
succeeds after exactly `N` checks and `N - 1` sleeps. -/
theorem C4_awaitCompletion :
    MAX_POLL_ATTEMPTS = 60 ∧ POLL_INTERVAL = 5 ∧
    (∀ status : Nat → Resp String,
      (∀ i, ∃ s, status i = .ok s ∧ classifyState s = .nonTerminal) →
      pollLoop status 0 MAX_POLL_ATTEMPTS =
        ⟨.timedOut, MAX_POLL_ATTEMPTS, MAX_POLL_ATTEMPTS⟩) ∧
    (∀ (srv : Server) (limit aIdx : Nat) (st : RunState) (ffuel : Nat) (eid : String),
      srv.exec aIdx = .ok (some eid) →
      (∀ i, ∃ s, srv.status aIdx i = .ok s ∧ classifyState s = .nonTerminal) →
      runAttempt srv limit aIdx st ffuel =
        ⟨.raised (.dune (.queryTimeout "Query execution timed out")),
          MAX_POLL_ATTEMPTS, MAX_POLL_ATTEMPTS, 0, st.offset, st.acc, st.hasMore⟩) ∧
    (∀ (status : Nat → Resp String) (N : Nat), 0 < N → N ≤ MAX_POLL_ATTEMPTS →
      (∀ i, i + 1 < N → ∃ s, status i = .ok s ∧ classifyState s = .nonTerminal) →
      (∃ s, status (N - 1) = .ok s ∧ classifyState s = .success) →
      pollLoop status 0 MAX_POLL_ATTEMPTS = ⟨.completed, N, N - 1⟩) := by
  refine ⟨rfl, rfl, ?_, ?_, ?_⟩
  · intro status h
    exact pollLoop_nonterminal status h MAX_POLL_ATTEMPTS 0
  · intro srv limit aIdx st ffuel eid hexec hstat
    have hp := pollLoop_nonterminal (srv.status aIdx) hstat MAX_POLL_ATTEMPTS 0
    simp only [runAttempt, hexec, hp]
  · intro status N hN hNle hpre hsucc
    have := pollLoop_completes status (N - 1) 0 MAX_POLL_ATTEMPTS (by omega)
      (fun i hi => by simpa using hpre i (by omega))
      (by simpa using hsucc)
    simpa [Nat.sub_add_cancel hN] using this

/-- Witness for C4: against the constant `EXECUTING` status source the poll
loop times out after 60 checks and 60 sleeps, and against `statusThird`
(completion reported on the third check) it succeeds after exactly 3 checks
and 2 sleeps. -/
theorem C4_awaitCompletion_witness :
    pollLoop (fun _ => .ok "QUERY_STATE_EXECUTING") 0 MAX_POLL_ATTEMPTS =
      ⟨.timedOut, MAX_POLL_ATTEMPTS, MAX_POLL_ATTEMPTS⟩ ∧
    pollLoop statusThird 0 MAX_POLL_ATTEMPTS = ⟨.completed, 3, 2⟩ := by
  refine ⟨C4_awaitCompletion.2.2.1 _ (fun i => ⟨"QUERY_STATE_EXECUTING", rfl, rfl⟩), ?_⟩
  exact C4_awaitCompletion.2.2.2.2 statusThird 3 (by decide) (by decide)
    (fun i hi => ⟨"QUERY_STATE_PENDING", by
      have : i < 2 := by omega
      simp [statusThird, this], rfl⟩)
    ⟨"QUERY_STATE_COMPLETED", by simp [statusThird], rfl⟩

/-- C5: for every state string observed by the poll loop: `COMPLETED` (and
only `COMPLETED`) is classified as the success terminal; each of `FAILED`,
`CANCELLED`, `ERROR` exits this check with a `QueryExecutionError` whose
message names the state; `PENDING` and `EXECUTING` sleep once and continue
polling; any other value exits this check at once with an unknown-state
`QueryExecutionError`, not retried within the poll loop. (The source's
state strings carry the `QUERY_STATE_` prefix of the remote API.) -/
theorem C5_state_classification :
    ∀ (st : String) (status : Nat → Resp String) (pc fuel : Nat),
    status pc = .ok st →
    ((classifyState st = .success ↔ st = "QUERY_STATE_COMPLETED") ∧
     (st = "QUERY_STATE_COMPLETED" →
       pollLoop status pc (fuel + 1) = ⟨.completed, 1, 0⟩) ∧
     (st = "QUERY_STATE_FAILED" ∨ st = "QUERY_STATE_CANCELLED" ∨ st = "QUERY_STATE_ERROR" →
       pollLoop status pc (fuel + 1) =
         ⟨.raised (.dune (.queryExecution ("Query execution failed with state: " ++ st))),
           1, 0⟩) ∧
     (st = "QUERY_STATE_PENDING" ∨ st = "QUERY_STATE_EXECUTING" →
       pollLoop status pc (fuel + 1) =
         ⟨(pollLoop status (pc + 1) fuel).outcome,
          (pollLoop status (pc + 1) fuel).checks + 1,
          (pollLoop status (pc + 1) fuel).sleeps + 1⟩) ∧
     (classifyState st = .unknown →
       pollLoop status pc (fuel + 1) =
         ⟨.raised (.dune (.queryExecution ("Unknown query state: " ++ st))), 1, 0⟩)) := by
  intro st status pc fuel hst
  refine ⟨?_, ?_, ?_, ?_, ?_⟩
  · constructor
    · intro h
      by_contra hne
      simp only [classifyState, if_neg hne] at h
      split_ifs at h
    · intro h; subst h; rfl
  · intro h; subst h; simp only [pollLoop, hst]; rfl
  · rintro (h | h | h) <;> (subst h; simp only [pollLoop, hst]; rfl)
  · rintro (h | h) <;> (subst h; simp only [pollLoop, hst]; rfl)
  · intro h
    simp only [pollLoop, hst, h]

/-- Witness for C5: a `FAILED` state observed on the first check exits the
poll loop at once with the execution-failed error naming the state. -/
theorem C5_state_classification_witness :
    pollLoop (fun _ => .ok "QUERY_STATE_FAILED") 0 1 =
      ⟨.raised (.dune (.queryExecution
        "Query execution failed with state: QUERY_STATE_FAILED")), 1, 0⟩ :=
  (C5_state_classification "QUERY_STATE_FAILED" (fun _ => .ok "QUERY_STATE_FAILED")
    0 0 rfl).2.2.1 (Or.inl rfl)

/-- C6: the staleness decision judges an envelope with a missing
`execution_started_at` stale; one with an empty row set stale regardless of
age; and otherwise stale exactly when `now - execution_started_at` is at
least the threshold, whose default is `STALE_DATA_THRESHOLD = 8` hours — so
whenever the difference is below the threshold and the rows are non-empty,
the result is judged fresh. (Both instants are parsed/taken in UTC in the
source; here they are the already-parsed microsecond instants.) -/
theorem C6_isStale :
    STALE_DATA_THRESHOLD = 8 ∧
    (∀ (rows : List Row) (now : Int) (h : Nat), isStale none rows now h = true) ∧
    (∀ (t now : Int) (h : Nat), isStale (some t) [] now h = true) ∧
    (∀ (t now : Int) (rows : List Row) (h : Nat), rows ≠ [] →
      (isStale (some t) rows now h = false ↔ now - t < hoursToMicros h)) := by
  refine ⟨rfl, fun _ _ _ => rfl, fun _ _ _ => rfl, ?_⟩
  intro t now rows h hrows
  cases rows with
  | nil => exact absurd rfl hrows
  | cons a l =>
    simp [isStale, not_le]

/-- Witness for C6: a non-empty row set whose start instant coincides with
the current instant is judged fresh at the default 8-hour threshold. -/
theorem C6_isStale_witness : isStale (some 0) [1] 0 8 = false :=
  (C6_isStale.2.2.2 0 0 [1] 8 (by decide)).mpr (by decide)

/-- C7: the page-fetch loop issues a further fetch exactly when the server
supplied a `next_offset` and the page just fetched was full (row count at
least the requested positive limit), and stops otherwise; in particular,
on the synthetic page sequence of 100, 100 and 40 rows against limit 100
it returns the 240 rows in page order after exactly three fetches. -/
theorem C7_pagination :
    (∀ (results : Nat → Resp Page) (limit offset : Nat) (acc rows : List Row)
       (n fuel : Nat),
      results offset = .ok ⟨rows, some n⟩ → rows ≠ [] → limit ≤ rows.length →
      fetchLoop results limit offset acc true (fuel + 1) =
        { fetchLoop results limit n (acc ++ rows) true fuel with
          fetches := (fetchLoop results limit n (acc ++ rows) true fuel).fetches + 1 }) ∧
    (∀ (results : Nat → Resp Page) (limit offset : Nat) (acc rows : List Row)
       (next : Option Nat) (fuel : Nat),
      results offset = .ok ⟨rows, next⟩ → rows ≠ [] →
      (next = none ∨ rows.length < limit) →
      fetchLoop results limit offset acc true (fuel + 1) =
        ⟨.done (acc ++ rows), 1, offset, acc ++ rows, false⟩) ∧
    ((fetchLoop pages240 100 0 [] true 10).outcome = .done (List.range 240) ∧
     (fetchLoop pages240 100 0 [] true 10).fetches = 3) := by
  refine ⟨?_, ?_, by decide, by decide⟩
  · intro results limit offset acc rows n fuel hres hrows hlim
    cases rows with
    | nil => exact absurd rfl hrows
    | cons a l =>
      simp only [List.length_cons] at hlim
      simp [fetchLoop, hres]
      intro hc
      exact absurd hc (by omega)
  · intro results limit offset acc rows next fuel hres hrows hstop
    cases rows with
    | nil => exact absurd rfl hrows
    | cons a l =>
      rcases hstop with h | h
      · subst h
        simp [fetchLoop, hres]
      · cases next with
        | none => simp [fetchLoop, hres]
        | some n =>
          simp only [List.length_cons] at h
          simp [fetchLoop, hres]
          intro hc
          exact absurd hc (by omega)

/-- Witness for C7: the final 40-row page of the synthetic sequence carries
no cursor, so after fetching it the loop stops with exactly one fetch. -/
theorem C7_pagination_witness :
    fetchLoop pages240 100 200 [] true 1 =
      ⟨.done ([] ++ (List.range 40).map (· + 200)), 1, 200,
        [] ++ (List.range 40).map (· + 200), false⟩ :=
  C7_pagination.2.1 pages240 100 200 [] ((List.range 40).map (· + 200)) none 0
    (by decide) (by decide) (Or.inl rfl)

/-- C1: on the server whose executions always complete at once with zero
result rows — the sustained no-data scenario — `run_query` does not retry
30 times and re-raise `NoDataError`: the first attempt raises `NoDataError`
internally (setting the shared `has_more_results` to `False`), and the
second attempt, finding `has_more_results` already `False`, skips the fetch
loop and returns the empty row list to the caller with `retry_count = 1`.
Sustained `NoDataError` across attempts is unreachable, because the flag is
never reset per attempt. -/
theorem C1_sustained_no_data :
    run_query srvNoData none none 10 =
      ⟨.success [], 1, 1, 2, 0, 1⟩ := by decide

/-- C2: on `srvMixed`, attempt 0 (execution `e0`) accumulates the page
`[1, 2]` and advances the shared offset to 2 before a transport error; the
retry submits the fresh execution `e1` but resumes paging at offset 2 with
the accumulation `[1, 2]` intact, returning `[1, 2, 30]` — rows of two
different executions mixed, with `e1`'s own first page `[10, 20]` never
fetched. A self-contained retry would have returned `[10, 20, 30]`. -/
theorem C2_cross_attempt_state :
    run_query srvMixed (some 2) none 10 =
      ⟨.success [1, 2, 30], 1, 1, 2, 0, 3⟩ := by decide

/-- C3 counterexample: in `env404` the first existing-results fetch reports
404 and the Query Runner returns `[7]`, yet the accessor answers `[8]` —
the rows of a second existing-results fetch — after two fetches and one
runner invocation: it does not return the Runner's result directly. -/
theorem C3_counterexample :
    get_latest_result_by_query_id env404 0 none none 5 = ⟨.success [8], 2, 1⟩ ∧
    env404.runner 0 = .success [7] ∧
    RunOutcome.success [8] ≠ RunOutcome.success [7] := by decide

/-- C3 as amended: when the first fetch of existing results reports 404,
the accessor invokes the Query Runner once, discards the Runner's returned
rows, and re-enters its fetch loop at the same offset with the accumulator
unchanged (raising no error itself when the Runner succeeds); it does not
return the Runner's result. -/
theorem C3_amended :
    ∀ (env : AccEnv) (now : Int) (limit offset : Option Nat) (fuel : Nat)
      (rows : List Row),
    env.fetch 0 = .notFound → env.runner 0 = .success rows →
    get_latest_result_by_query_id env now limit offset (fuel + 1) =
      ⟨(getLatestAux env now (limit.getD 100) (offset.getD 0) [] 1 1 fuel).outcome,
       (getLatestAux env now (limit.getD 100) (offset.getD 0) [] 1 1 fuel).fetchCalls + 1,
       (getLatestAux env now (limit.getD 100) (offset.getD 0) [] 1 1 fuel).runnerCalls + 1⟩ := by
  intro env now limit offset fuel rows hfetch hrun
  simp only [get_latest_result_by_query_id, getLatestAux, hfetch, hrun]

/-- Witness for C3: applying the amended statement to `env404` shows its
404 first fetch leads to one discarded runner call and a resumed fetch
loop. -/
theorem C3_amended_witness :
    get_latest_result_by_query_id env404 0 none none 5 =
      ⟨(getLatestAux env404 0 100 0 [] 1 1 4).outcome,
       (getLatestAux env404 0 100 0 [] 1 1 4).fetchCalls + 1,
       (getLatestAux env404 0 100 0 [] 1 1 4).runnerCalls + 1⟩ :=
  C3_amended env404 0 none none 4 [7] rfl rfl

/-- C8 counterexample: in `envSecondPage` the first page is fresh, full and
carries a cursor, while the second page lacks `execution_started_at`; the
accessor applies the missing-timestamp check to that second page and
returns the Runner's rows `[99]` instead of the accumulated `[1, 2]` — the
checks are repeated beyond the first page. -/
theorem C8_counterexample :
    get_latest_result_by_query_id envSecondPage 0 (some 1) none 5 =
      ⟨.success [99], 2, 1⟩ ∧
    envSecondPage.fetch 0 = .ok ⟨[1], some 0, some 1⟩ ∧
    envSecondPage.fetch 1 = .ok ⟨[2], none, none⟩ ∧
    envSecondPage.runner 0 = .success [99] := by decide

/-- C8 as amended: the missing-timestamp and staleness checks are applied
to every page the accessor fetches, first and subsequent alike — at any
iteration state (any offset, accumulator and call indices), a fetched
envelope that is missing its timestamp or stale diverts to the Query
Runner, whose outcome is returned with the accumulated rows discarded. -/
theorem C8_amended :
    ∀ (env : AccEnv) (now : Int) (limit offset : Nat) (acc : List Row)
      (fIdx rIdx fuel : Nat) (e : Envelope),
    env.fetch fIdx = .ok e →
    isStale e.execution_started_at e.rows now STALE_DATA_THRESHOLD = true →
    getLatestAux env now limit offset acc fIdx rIdx (fuel + 1) =
      ⟨wrapRunnerOutcome (env.runner rIdx), 1, 1⟩ := by
  intro env now limit offset acc fIdx rIdx fuel e hfetch hstale
  simp only [getLatestAux, hfetch, hstale, if_true]

/-- Witness for C8: applying the amended statement at fetch index 1 with a
non-empty accumulator shows a second page with a missing timestamp diverts
to the Runner. -/
theorem C8_amended_witness :
    getLatestAux envSecondPage 0 1 1 [1] 1 0 3 =
      ⟨wrapRunnerOutcome (envSecondPage.runner 0), 1, 1⟩ :=
  C8_amended envSecondPage 0 1 1 [1] 1 0 2 ⟨[2], none, none⟩ rfl rfl

/-- C9 counterexample: when the browser-driver construction fails — it
happens before the `try` of `get_query_ids`, and `set_driver` re-raises the
original exception — the failure propagates unwrapped rather than as the
lookup-specific error kind. -/
theorem C9_counterexample :
    get_query_ids (.error "chromedriver missing") true true false [] =
      .error (.raw "chromedriver missing") ∧
    (PyError.raw "chromedriver missing").isSelenium = false :=
  ⟨rfl, rfl⟩

/-- C9 as amended: the identifier-lookup collaborator returns records each
consisting of an integer `query_id` parsed from a Dune queries href and the
element's title string; any failure raised out of the lookup after the
driver has been constructed surfaces as the lookup-specific error kind
(`SeleniumError`), never as a query-execution kind; a driver-construction
failure propagates as the original unwrapped error, which is also never a
query-execution kind. -/
theorem C9_lookup_contract :
    (∀ (dr tf sf : Bool) (elements : List ScrapedElement) (r : QueryRecord),
      r ∈ get_queries_ids dr tf sf elements →
      ∃ e ∈ elements, ∃ h, e.href = some h ∧ hasDunePrefix h = true ∧
        parseQueryId h = some r.query_id ∧ r.title = e.title) ∧
    (∀ (dr tf sf : Bool) (elements : List ScrapedElement) (err : PyError),
      get_query_ids (.ok ()) dr tf sf elements = .error err →
      err.isSelenium = true ∧ err.isExecKind = false) ∧
    (∀ (m : String) (dr tf sf : Bool) (elements : List ScrapedElement) (err : PyError),
      get_query_ids (.error m) dr tf sf elements = .error err →
      err = .raw m ∧ err.isExecKind = false) := by
  refine ⟨?_, ?_, ?_⟩
  · intro dr tf sf elements r hmem
    have hmem' : r ∈ elements.filterMap extractRecord := by
      cases dr with
      | false => exact absurd hmem (List.not_mem_nil r)
      | true =>
        cases sf with
        | true => exact absurd hmem (List.not_mem_nil r)
        | false =>
          cases tf with
          | false => exact absurd hmem (List.not_mem_nil r)
          | true => exact hmem
    obtain ⟨e, he, hex⟩ := List.mem_filterMap.mp hmem'
    refine ⟨e, he, ?_⟩
    obtain ⟨href, title⟩ := e
    cases href with
    | none => simp [extractRecord] at hex
    | some h =>
      simp only [extractRecord] at hex
      by_cases hs : hasDunePrefix h = true
      · rw [if_pos hs] at hex
        obtain ⟨n, hn, hr⟩ := Option.map_eq_some'.mp hex
        exact ⟨h, rfl, hs, by rw [hn, ← hr], by rw [← hr]⟩
      · rw [if_neg hs] at hex
        simp at hex
  · intro dr tf sf elements err heq
    simp only [get_query_ids] at heq
    split_ifs at heq
    all_goals
      have h2 := Except.error.inj heq
      subst h2
      exact ⟨rfl, rfl⟩
  · intro m dr tf sf elements err heq
    simp only [get_query_ids] at heq
    obtain rfl : PyError.raw m = err := Except.error.inj heq
    exact ⟨rfl, rfl⟩

/-- Witness for C9: a non-empty scraped lookup makes the wrapper fail, and
that failure is of the lookup-specific kind and not a query-execution
kind. -/
theorem C9_lookup_contract_witness :
    (PyError.selenium
      "Error getting query IDs: dict object has no attribute split").isSelenium = true ∧
    (PyError.selenium
      "Error getting query IDs: dict object has no attribute split").isExecKind = false :=
  C9_lookup_contract.2.1 true true false
    [⟨some "https://dune.com/queries/123", "t"⟩]
    (.selenium "Error getting query IDs: dict object has no attribute split") rfl

end DuneAgent
